import Mathlib

/-!
Verification of the carbon-calculation-mapper core: shallow embedding of the
carbon estimation engines, polygon area calculators, remote-job poll loop and
token-exchange payload construction, over exact rational arithmetic.
-/

namespace CarbonMapper

/-- Rounding to two decimal places, modelling the JavaScript idioms
parseFloat(x.toFixed(2)) and Math.round(x * 100) / 100. -/
def round2 (x : ℚ) : ℚ := (⌊x * 100 + 1/2⌋ : ℚ) / 100

/-- Per-hectare carbon coefficient triple, from calculateCarbonFromRealData in
src/unnamed/part_006: biomass is the aboveground biomass rate, soil the soil
carbon rate, rootRatio the root-to-shoot ratio. -/
structure Coeff where
  biomass : ℚ
  soil : ℚ
  rootRatio : ℚ
deriving DecidableEq, Repr

/-- The coefficient table of calculateCarbonFromRealData (src/unnamed/part_006,
lines 267-274). -/
def carbonCoefficients : List (String × Coeff) :=
  [("Forest", ⟨120, 80, 26/100⟩),
   ("Agriculture", ⟨15, 45, 15/100⟩),
   ("Grassland", ⟨8, 60, 40/100⟩),
   ("Urban", ⟨5, 20, 10/100⟩),
   ("Water", ⟨0, 0, 0⟩),
   ("Bare_soil", ⟨1, 15, 5/100⟩)]

/-- Table lookup modelling the JavaScript property access
carbonCoefficients[coverType]; none models an absent key (undefined). -/
def lookupCoeff (t : String) : Option Coeff :=
  (carbonCoefficients.find? (fun p => p.1 == t)).map Prod.snd

/-- Clamped NDVI-derived biomass multiplier
Math.max(0.2, Math.min(2.0, ndviMean * 2.5)) from part_006 line 276. -/
def ndviBiomassMultiplier (ndviMean : ℚ) : ℚ :=
  max (2/10) (min 2 (ndviMean * (5/2)))

/-- Data-quality multiplier from part_006 line 277. -/
def qualityMultiplier (dataQuality : String) : ℚ :=
  if dataQuality == "high" then 1
  else if dataQuality == "medium" then 9/10
  else 8/10

/-- Running totals of the accumulation loop in calculateCarbonFromRealData. -/
structure Pools where
  ag : ℚ
  bg : ℚ
  soil : ℚ
deriving DecidableEq, Repr

/-- The Object.entries(landCover).forEach accumulation loop of
calculateCarbonFromRealData (part_006 lines 279-296): categories missing from
the coefficient table are skipped by the truthiness guard
if (carbonCoefficients[coverType]). -/
def accumPools (ndviMean qm area : ℚ) : List (String × ℚ) → Pools
  | [] => ⟨0, 0, 0⟩
  | (t, pct) :: rest =>
    let r := accumPools ndviMean qm area rest
    match lookupCoeff t with
    | none => r
    | some c =>
      let areaForType := area * (pct / 100)
      let agB := areaForType * c.biomass * ndviBiomassMultiplier ndviMean * qm
      ⟨r.ag + agB, r.bg + agB * c.rootRatio, r.soil + areaForType * c.soil * qm⟩

/-- Variability factor of part_006 line 298: 1 + (ndviStd - 0.075) * 2. -/
def variabilityFactorReal (ndviStd : ℚ) : ℚ := 1 + (ndviStd - 3/40) * 2

/-- Result record of either carbon estimation function (the four numeric
outputs, each rounded to two decimals in the source). -/
structure CarbonOut where
  totalCO2e : ℚ
  aboveGroundBiomass : ℚ
  belowGroundBiomass : ℚ
  soilOrganicCarbon : ℚ
deriving DecidableEq, Repr

/-- Embedding of calculateCarbonFromRealData (src/unnamed/part_006 lines
255-310): accumulate per-category pools, scale aboveground and belowground
biomass by the variability factor, convert the pool sum to CO2e with the fixed
factor 3.67, and round every output to two decimals. -/
def calculateCarbonFromRealData (ndviMean ndviStd : ℚ)
    (landCover : List (String × ℚ)) (areaHectares : ℚ)
    (dataQuality : String) : CarbonOut :=
  let qm := qualityMultiplier dataQuality
  let p := accumPools ndviMean qm areaHectares landCover
  let vf := variabilityFactorReal ndviStd
  let ag := p.ag * vf
  let bg := p.bg * vf
  let total := (ag + bg + p.soil) * (367/100)
  ⟨round2 total, round2 ag, round2 bg, round2 p.soil⟩

/-- Data-quality grade of the live path in part_006 line 164:
cloudCoverage < 20 ? high : cloudCoverage < 50 ? medium : low. -/
def dataQualityReal (cloudCoverage : ℚ) : String :=
  if cloudCoverage < 20 then "high"
  else if cloudCoverage < 50 then "medium"
  else "low"

/-- Scalar uncertainty percentage of part_006 line 165. -/
def uncertaintyReal (cloudCoverage : ℚ) : ℚ :=
  if cloudCoverage < 20 then 15
  else if cloudCoverage < 50 then 25
  else 40

/-- NDVI-dependent coefficient table of calculateCarbonFromNDVIAndLandCover
(src/supabase/functions/calculate-carbon-gee/index.ts lines 208-213); none
models a cover type absent from the object literal. -/
def coefNdvi (ndviMean : ℚ) (t : String) : Option ℚ :=
  if t == "Dense Forest" then some (200 + (ndviMean - 6/10) * 300)
  else if t == "Grassland" then some (80 + (ndviMean - 4/10) * 100)
  else if t == "Agricultural" then some (50 + (ndviMean - 3/10) * 80)
  else if t == "Sparse Vegetation" then some (20 + max 0 ((ndviMean - 2/10) * 60))
  else none

/-- The JavaScript expression carbonCoefficients[coverType] || 50: an absent
key, or a coefficient equal to 0 (falsy), falls back to the default 50. -/
def coefNdviOrDefault (ndviMean : ℚ) (t : String) : ℚ :=
  match coefNdvi ndviMean t with
  | some c => if c = 0 then 50 else c
  | none => 50

/-- The weighted-sum loop of calculateCarbonFromNDVIAndLandCover (index.ts
lines 216-220), before the variability factor is applied. -/
def weightedCarbon (ndviMean areaHectares : ℚ) : List (String × ℚ) → ℚ
  | [] => 0
  | (t, pct) :: rest =>
    coefNdviOrDefault ndviMean t * pct / 100 * areaHectares
      + weightedCarbon ndviMean areaHectares rest

/-- Variability factor of index.ts line 223: Math.max(0.7, 1 - ndviStd / 0.3). -/
def variabilityFactorNdvi (ndviStd : ℚ) : ℚ := max (7/10) (1 - ndviStd / (3/10))

/-- The dominant-cover reduce of index.ts lines 227-229; none models the
TypeError thrown by reducing an empty array with no initial value. -/
def dominantCover : List (String × ℚ) → Option (String × ℚ)
  | [] => none
  | h :: rest =>
    some (rest.foldl (fun prev cur => if prev.2 < cur.2 then cur else prev) h)

/-- Pool ratio triple (soilRatio, aboveGroundRatio, belowGroundRatio) chosen by
the switch on the dominant cover (index.ts lines 233-245). -/
def poolRatios (t : String) : ℚ × ℚ × ℚ :=
  if t == "Dense Forest" then (42/100, 45/100, 13/100)
  else if t == "Grassland" then (65/100, 25/100, 10/100)
  else if t == "Agricultural" then (70/100, 20/100, 10/100)
  else (50/100, 35/100, 15/100)

/-- Embedding of calculateCarbonFromNDVIAndLandCover (calculate-carbon-gee
index.ts lines 200-253): weighted carbon scaled by the variability factor is
the total CO2e directly, and the three pools are ratio shares of that total;
none models the exception raised on an empty land-cover map. -/
def calculateCarbonFromNDVIAndLandCover (areaHectares ndviMean ndviStd : ℚ)
    (landCover : List (String × ℚ)) : Option CarbonOut :=
  match dominantCover landCover with
  | none => none
  | some d =>
    let totalCarbon :=
      weightedCarbon ndviMean areaHectares landCover * variabilityFactorNdvi ndviStd
    let r := poolRatios d.1
    some ⟨round2 totalCarbon, round2 (totalCarbon * r.2.1),
          round2 (totalCarbon * r.2.2), round2 (totalCarbon * r.1)⟩

/-- Data-quality classification of calculate-carbon-gee index.ts lines
164-170: start at High, demote to Medium when cloud > 10 or std > 0.2, and to
Low when cloud > 20 or std > 0.3. -/
def dataQualityNdvi (cloudCoverage ndviStd : ℚ) : String :=
  if 20 < cloudCoverage ∨ 3/10 < ndviStd then "Low"
  else if 10 < cloudCoverage ∨ 1/5 < ndviStd then "Medium"
  else "High"

/-- Uncertainty factor by quality grade (index.ts line 173). -/
def uncertaintyFactorNdvi (dataQuality : String) : ℚ :=
  if dataQuality == "High" then 1/10
  else if dataQuality == "Medium" then 1/5
  else 7/20

/-- Uncertainty range pair (index.ts lines 174-177). -/
def uncertaintyRangeNdvi (totalCO2e factor : ℚ) : ℚ × ℚ :=
  (totalCO2e * (1 - factor), totalCO2e * (1 + factor))

/-- Width of an uncertainty range pair. -/
def rangeWidth (r : ℚ × ℚ) : ℚ := r.2 - r.1

/-- Numeric rank of a quality grade, for stating monotonicity: High is 2,
Medium 1, Low 0 (case-insensitive across the two engines' spellings). -/
def qualityRank (g : String) : ℕ :=
  if g == "High" ∨ g == "high" then 2
  else if g == "Medium" ∨ g == "medium" then 1
  else 0

/-- Cyclic shoelace sum of both calculatePolygonArea variants: indices i and
j = (i+1) mod n are modelled by zipping the list with its rotation by one. -/
def shoelaceSum (coords : List (ℚ × ℚ)) : ℚ :=
  ((coords.zip (coords.rotate 1)).map
    (fun pq => pq.1.1 * pq.2.2 - pq.2.1 * pq.1.2)).sum

/-- Embedding of calculatePolygonArea in src/unnamed/part_003 lines 174-193:
explicit guard returning 0 for fewer than 3 points, then
abs(shoelace)/2 * 12321 * 100 converts square degrees to hectares. -/
def calculatePolygonAreaGuarded (coords : List (ℚ × ℚ)) : ℚ :=
  if coords.length < 3 then 0
  else |shoelaceSum coords| / 2 * 12321 * 100

/-- Embedding of calculatePolygonArea in src/unnamed/part_002 lines 229-238:
no explicit point-count guard; abs(shoelace)/2 * 111000 * 111000 / 10000
converts to hectares. -/
def calculatePolygonAreaUnguarded (coords : List (ℚ × ℚ)) : ℚ :=
  |shoelaceSum coords| / 2 * 111000 * 111000 / 10000

/-- One poll response from the remote job endpoint: the done flag, an optional
error payload and an optional result payload. -/
structure PollResponse where
  done : Bool
  error : Option String
  result : Option String
deriving DecidableEq, Repr

/-- Terminal outcome of the poll loop: a returned result payload, a thrown
remote-compute failure carrying the upstream error detail, or the thrown
timeout after the attempt budget is exhausted. -/
inductive PollOutcome where
  | completed (r : Option String)
  | failed (e : String)
  | timedOut
deriving DecidableEq, Repr

/-- Maximum poll attempts, const maxAttempts = 30 in both poll loops
(test-gee-hardcoded index.ts line 125 and calculate-carbon-gee index.ts line
630). -/
def maxPollAttempts : ℕ := 30

/-- Body of the while (attempts < maxAttempts) poll loop, by recursion on the
remaining attempt budget: poll attempt number a reads respond a; a done
response with an error payload throws, a done response without one returns the
result, otherwise the loop continues with attempts + 1. The second component
counts status fetches actually issued. -/
def runPollAux (respond : ℕ → PollResponse) (a : ℕ) : ℕ → PollOutcome × ℕ
  | 0 => (.timedOut, 0)
  | fuel + 1 =>
    let r := respond a
    if r.done then
      match r.error with
      | some e => (.failed e, 1)
      | none => (.completed r.result, 1)
    else
      let rest := runPollAux respond (a + 1) fuel
      (rest.1, rest.2 + 1)

/-- The full poll loop starting at attempts = 0 with the configured budget. -/
def runPoll (respond : ℕ → PollResponse) : PollOutcome × ℕ :=
  runPollAux respond 0 maxPollAttempts

/-- A JSON scalar appearing in the JWT claims payload. -/
inductive JVal where
  | str (v : String)
  | int (v : ℤ)
deriving DecidableEq, Repr

/-- The OAuth token endpoint URL used as the assertion audience and as the
POST target in both token exchanges. -/
def tokenEndpoint : String := "https://oauth2.googleapis.com/token"

/-- Permission scope requested by getGEEAuthToken in part_006 line 428. -/
def scopeEarthEngine : String := "https://www.googleapis.com/auth/earthengine"

/-- Permission scope requested by the NDVI time-series function
(calculate-carbon-gee index.ts line 528). -/
def scopeEarthEngineReadonly : String :=
  "https://www.googleapis.com/auth/earthengine.readonly"

/-- Claims payload built by getGEEAuthToken (src/unnamed/part_006 lines
437-444), as the ordered key-value object literal of the source. -/
def jwtClaimsReal (clientEmail : String) (now : ℤ) : List (String × JVal) :=
  [("iss", .str clientEmail),
   ("scope", .str scopeEarthEngine),
   ("aud", .str tokenEndpoint),
   ("exp", .int (now + 3600)),
   ("iat", .int now)]

/-- Claims payload built by the NDVI time-series token exchange
(calculate-carbon-gee index.ts lines 525-532). -/
def jwtClaimsNdvi (clientEmail : String) (now : ℤ) : List (String × JVal) :=
  [("iss", .str clientEmail),
   ("scope", .str scopeEarthEngineReadonly),
   ("aud", .str tokenEndpoint),
   ("exp", .int (now + 3600)),
   ("iat", .int now)]

/-- Form-encoded token exchange request: the POST target URL, the grant_type
form field and the assertion form field (part_006 lines 450-459 and index.ts
lines 560-566). -/
structure TokenRequest where
  url : String
  grantType : String
  assertion : String
deriving DecidableEq, Repr

/-- The token exchange POST built from a signed assertion. -/
def tokenExchangeRequest (jwt : String) : TokenRequest :=
  ⟨tokenEndpoint, "urn:ietf:params:oauth:grant-type:jwt-bearer", jwt⟩

/-- The aboveground-biomass accumulation with the NDVI multiplier factored
out: the per-category base contribution of the loop in
calculateCarbonFromRealData. -/
def agBase (qm area : ℚ) : List (String × ℚ) → ℚ
  | [] => 0
  | (t, pct) :: rest =>
    (match lookupCoeff t with
     | none => 0
     | some c => area * (pct / 100) * c.biomass * qm) + agBase qm area rest

/-- A status source whose job stays pending for the first two polls and then
completes successfully with a payload on the third. -/
def respondSucceedsAtThree : ℕ → PollResponse := fun i =>
  if i < 2 then ⟨false, none, none⟩ else ⟨true, none, some "payload"⟩

/-- A status source whose job never reports done. -/
def respondNeverDone : ℕ → PollResponse := fun _ => ⟨false, none, none⟩

/-- A status source whose job is already done with an error payload on the
first poll. -/
def respondFailsImmediately : ℕ → PollResponse := fun _ =>
  ⟨true, some "quota exceeded", none⟩

theorem round2_zero : round2 0 = 0 := by
  unfold round2
  norm_num

theorem round2_mono {x y : ℚ} (h : x ≤ y) : round2 x ≤ round2 y := by
  unfold round2
  have hf : (⌊x * 100 + 1/2⌋ : ℤ) ≤ ⌊y * 100 + 1/2⌋ := by
    apply Int.floor_le_floor
    nlinarith
  have : ((⌊x * 100 + 1/2⌋ : ℤ) : ℚ) ≤ ((⌊y * 100 + 1/2⌋ : ℤ) : ℚ) := by
    exact_mod_cast hf
  linarith

theorem abs_round2_sub_le (x : ℚ) : |round2 x - x| ≤ 1/200 := by
  unfold round2
  have h1 : ((⌊x * 100 + 1/2⌋ : ℤ) : ℚ) ≤ x * 100 + 1/2 := Int.floor_le _
  have h2 : x * 100 + 1/2 - 1 < ((⌊x * 100 + 1/2⌋ : ℤ) : ℚ) := Int.sub_one_lt_floor _
  rw [abs_le]
  constructor <;> nlinarith

theorem qualityMultiplier_pos (dq : String) : 0 < qualityMultiplier dq := by
  unfold qualityMultiplier
  split_ifs <;> norm_num

theorem variabilityFactorReal_pos {s : ℚ} (hs : 0 ≤ s) :
    0 < variabilityFactorReal s := by
  unfold variabilityFactorReal
  linarith

theorem ndviBiomassMultiplier_mono {m1 m2 : ℚ} (h : m1 ≤ m2) :
    ndviBiomassMultiplier m1 ≤ ndviBiomassMultiplier m2 := by
  unfold ndviBiomassMultiplier
  exact max_le_max le_rfl (min_le_min le_rfl (by nlinarith))

theorem ndviBiomassMultiplier_bounds (m : ℚ) :
    1/5 ≤ ndviBiomassMultiplier m ∧ ndviBiomassMultiplier m ≤ 2 := by
  unfold ndviBiomassMultiplier
  constructor
  · calc (1/5 : ℚ) = 2/10 := by norm_num
    _ ≤ _ := le_max_left _ _
  · exact max_le (by norm_num) (min_le_left _ _)

theorem lookupCoeff_nonneg {t : String} {c : Coeff}
    (h : lookupCoeff t = some c) :
    0 ≤ c.biomass ∧ 0 ≤ c.soil ∧ 0 ≤ c.rootRatio := by
  unfold lookupCoeff at h
  cases hf : carbonCoefficients.find? (fun p => p.1 == t) with
  | none => rw [hf] at h; simp at h
  | some p =>
    rw [hf] at h
    simp at h
    have hmem : p ∈ carbonCoefficients := List.mem_of_find?_eq_some hf
    subst h
    fin_cases hmem <;> norm_num

theorem accumPools_ag_factored (m qm area : ℚ) (lc : List (String × ℚ)) :
    (accumPools m qm area lc).ag = ndviBiomassMultiplier m * agBase qm area lc := by
  induction lc with
  | nil => simp [accumPools, agBase]
  | cons hd tl ih =>
    obtain ⟨t, pct⟩ := hd
    simp only [accumPools, agBase]
    cases h : lookupCoeff t with
    | none => simpa [h] using ih
    | some c =>
      simp only [h]
      rw [ih]
      ring

theorem agBase_nonneg {qm area : ℚ} (hqm : 0 ≤ qm) (harea : 0 ≤ area)
    {lc : List (String × ℚ)} (hpct : ∀ p ∈ lc, 0 ≤ p.2) :
    0 ≤ agBase qm area lc := by
  induction lc with
  | nil => simp [agBase]
  | cons hd tl ih =>
    obtain ⟨t, pct⟩ := hd
    have hp : 0 ≤ pct := hpct (t, pct) (by simp)
    have ht : ∀ p ∈ tl, 0 ≤ p.2 := fun p hp => hpct p (by simp [hp])
    simp only [agBase]
    have hrest := ih ht
    cases h : lookupCoeff t with
    | none => simpa using hrest
    | some c =>
      have hc := (lookupCoeff_nonneg h).1
      have : 0 ≤ area * (pct / 100) * c.biomass * qm := by positivity
      show 0 ≤ area * (pct / 100) * c.biomass * qm + agBase qm area tl
      linarith

theorem poolRatios_sum (t : String) :
    (poolRatios t).1 + (poolRatios t).2.1 + (poolRatios t).2.2 = 1 := by
  unfold poolRatios
  split_ifs <;> norm_num

theorem variabilityFactorNdvi_anti {s1 s2 : ℚ} (h : s1 ≤ s2) :
    variabilityFactorNdvi s2 ≤ variabilityFactorNdvi s1 := by
  unfold variabilityFactorNdvi
  exact max_le_max le_rfl (by linarith)

theorem runPollAux_timeout (respond : ℕ → PollResponse) :
    ∀ (fuel a : ℕ), (∀ i, i < fuel → (respond (a + i)).done = false) →
      runPollAux respond a fuel = (.timedOut, fuel) := by
  intro fuel
  induction fuel with
  | zero => intro a _; rfl
  | succ f ih =>
    intro a h
    have h0 : (respond a).done = false := by
      have := h 0 (Nat.succ_pos f)
      simpa using this
    have hrec := ih (a + 1) (fun i hi => by
      have := h (i + 1) (by omega)
      rwa [show a + (i + 1) = a + 1 + i by omega] at this)
    simp only [runPollAux, h0]
    rw [hrec]
    simp

theorem runPollAux_success (respond : ℕ → PollResponse) :
    ∀ (k a fuel : ℕ), k < fuel →
      (∀ i, i < k → (respond (a + i)).done = false) →
      (respond (a + k)).done = true →
      (respond (a + k)).error = none →
      runPollAux respond a fuel = (.completed (respond (a + k)).result, k + 1) := by
  intro k
  induction k with
  | zero =>
    intro a fuel hlt _ hdone herr
    obtain ⟨f, rfl⟩ : ∃ f, fuel = f + 1 := ⟨fuel - 1, by omega⟩
    simp only [Nat.add_zero] at hdone herr
    simp [runPollAux, hdone, herr]
  | succ k ih =>
    intro a fuel hlt hbefore hdone herr
    obtain ⟨f, rfl⟩ : ∃ f, fuel = f + 1 := ⟨fuel - 1, by omega⟩
    have h0 : (respond a).done = false := by
      have := hbefore 0 (Nat.succ_pos k)
      simpa using this
    have hrec := ih (a + 1) f (by omega)
      (fun i hi => by
        have := hbefore (i + 1) (by omega)
        rwa [show a + (i + 1) = a + 1 + i by omega] at this)
      (by rwa [show a + 1 + k = a + (k + 1) by omega])
      (by rwa [show a + 1 + k = a + (k + 1) by omega])
    simp only [runPollAux, h0]
    rw [hrec]
    rw [show a + 1 + k = a + (k + 1) by omega]
    simp

theorem runPollAux_fail (respond : ℕ → PollResponse) (a fuel : ℕ) (e : String)
    (hfuel : 0 < fuel) (hdone : (respond a).done = true)
    (herr : (respond a).error = some e) :
    runPollAux respond a fuel = (.failed e, 1) := by
  obtain ⟨f, rfl⟩ : ∃ f, fuel = f + 1 := ⟨fuel - 1, by omega⟩
  simp [runPollAux, hdone, herr]

theorem shoelaceSum_nil : shoelaceSum [] = 0 := rfl

theorem shoelaceSum_single (a : ℚ × ℚ) : shoelaceSum [a] = 0 := by
  simp [shoelaceSum, List.rotate]

theorem shoelaceSum_pair (a b : ℚ × ℚ) : shoelaceSum [a, b] = 0 := by
  simp [shoelaceSum, List.rotate]

/-- C8: for every input coordinate list with fewer than 3 points, both
polygon-area calculations return exactly 0 hectares (the guarded variant by
its explicit early return, the unguarded variant because the cyclic shoelace
sum of at most two points cancels exactly); both are total functions, so
neither can throw on this path. -/
theorem C8_fewer_than_three_points_zero_area (coords : List (ℚ × ℚ))
    (h : coords.length < 3) :
    calculatePolygonAreaGuarded coords = 0 ∧
    calculatePolygonAreaUnguarded coords = 0 := by
  have hs : shoelaceSum coords = 0 := by
    cases coords with
    | nil => rfl
    | cons a t =>
      cases t with
      | nil => exact shoelaceSum_single a
      | cons b t2 =>
        cases t2 with
        | nil => exact shoelaceSum_pair a b
        | cons c t3 =>
          simp [List.length_cons] at h
          exact absurd h (by omega)
  constructor
  · unfold calculatePolygonAreaGuarded
    rw [if_pos h]
  · unfold calculatePolygonAreaUnguarded
    rw [hs]
    norm_num

/-- Witness for C8 at the concrete two-point list [(0,0), (1,1)]. -/
theorem C8_witness :
    ([((0 : ℚ), (0 : ℚ)), (1, 1)].length < 3) ∧
    calculatePolygonAreaGuarded [((0 : ℚ), (0 : ℚ)), (1, 1)] = 0 ∧
    calculatePolygonAreaUnguarded [((0 : ℚ), (0 : ℚ)), (1, 1)] = 0 :=
  ⟨by norm_num,
   (C8_fewer_than_three_points_zero_area _ (by norm_num)).1,
   (C8_fewer_than_three_points_zero_area _ (by norm_num)).2⟩

/-- C10: a land-cover breakdown consisting entirely of the Water category
yields an all-zero carbon estimate from calculateCarbonFromRealData for every
area, vegetation index mean, standard deviation, percentage and quality grade,
because every Water coefficient in the table is 0. -/
theorem C10_water_yields_zero (ndviMean ndviStd pct areaHectares : ℚ)
    (dq : String) :
    calculateCarbonFromRealData ndviMean ndviStd [("Water", pct)]
      areaHectares dq = ⟨0, 0, 0, 0⟩ := by
  simp [calculateCarbonFromRealData, accumPools, lookupCoeff, carbonCoefficients,
    List.find?, round2_zero]

/-- C9: the signed-assertion claims set built by both token exchanges is
exactly the five standard claims with issuer the credential email, scope the
requested permission scope, audience the OAuth token endpoint, issued-at the
current time and expiry one hour later; and the token exchange posts the
assertion to the token endpoint with the jwt-bearer grant type. -/
theorem C9_jwt_claims (email : String) (now : ℤ) (jwt : String) :
    (jwtClaimsReal email now).lookup "iss" = some (.str email) ∧
    (jwtClaimsReal email now).lookup "scope" = some (.str scopeEarthEngine) ∧
    (jwtClaimsReal email now).lookup "aud" = some (.str tokenEndpoint) ∧
    (jwtClaimsReal email now).lookup "iat" = some (.int now) ∧
    (jwtClaimsReal email now).lookup "exp" = some (.int (now + 3600)) ∧
    (jwtClaimsReal email now).map Prod.fst = ["iss", "scope", "aud", "exp", "iat"] ∧
    (jwtClaimsNdvi email now).lookup "iss" = some (.str email) ∧
    (jwtClaimsNdvi email now).lookup "scope" = some (.str scopeEarthEngineReadonly) ∧
    (jwtClaimsNdvi email now).lookup "aud" = some (.str tokenEndpoint) ∧
    (jwtClaimsNdvi email now).lookup "iat" = some (.int now) ∧
    (jwtClaimsNdvi email now).lookup "exp" = some (.int (now + 3600)) ∧
    (jwtClaimsNdvi email now).map Prod.fst = ["iss", "scope", "aud", "exp", "iat"] ∧
    tokenExchangeRequest jwt =
      ⟨tokenEndpoint, "urn:ietf:params:oauth:grant-type:jwt-bearer", jwt⟩ := by
  refine ⟨rfl, rfl, rfl, ?_, ?_, rfl, rfl, rfl, rfl, ?_, ?_, rfl, rfl⟩ <;>
    simp [jwtClaimsReal, jwtClaimsNdvi, List.lookup]

/-- C3: the bounded poll loop returns the result payload when the job first
reports done with no error on poll N for N at most the 30-attempt budget,
times out after exactly 30 status fetches when the job never reports done, and
raises the upstream error after exactly one status fetch when the first poll
reports done with an error payload. -/
theorem C3_poll_loop (respond : ℕ → PollResponse) :
    (∀ N v, 1 ≤ N → N ≤ maxPollAttempts →
      (∀ i, i < N - 1 → (respond i).done = false) →
      (respond (N - 1)).done = true →
      (respond (N - 1)).error = none →
      (respond (N - 1)).result = some v →
      runPoll respond = (.completed (some v), N)) ∧
    ((∀ i, i < maxPollAttempts → (respond i).done = false) →
      runPoll respond = (.timedOut, maxPollAttempts)) ∧
    (∀ e, (respond 0).done = true → (respond 0).error = some e →
      runPoll respond = (.failed e, 1)) := by
  refine ⟨?_, ?_, ?_⟩
  · intro N v hN hmax hbefore hdone herr hres
    have h := runPollAux_success respond (N - 1) 0 maxPollAttempts
      (by unfold maxPollAttempts at hmax ⊢; omega)
      (fun i hi => by simpa using hbefore i hi)
      (by simpa using hdone)
      (by simpa using herr)
    unfold runPoll
    rw [h]
    simp only [Nat.zero_add, hres]
    congr 1
    omega
  · intro hnever
    have h := runPollAux_timeout respond maxPollAttempts 0
      (fun i hi => by simpa using hnever i hi)
    unfold runPoll
    rw [h]
  · intro e hdone herr
    exact runPollAux_fail respond 0 maxPollAttempts e (by norm_num [maxPollAttempts])
      hdone herr

/-- Witness for C3 at three concrete status sources: success on the third
poll, a job that never finishes, and a job that is done with an error
immediately. -/
theorem C3_witness :
    runPoll respondSucceedsAtThree = (.completed (some "payload"), 3) ∧
    runPoll respondNeverDone = (.timedOut, 30) ∧
    runPoll respondFailsImmediately = (.failed "quota exceeded", 1) :=
  ⟨(C3_poll_loop respondSucceedsAtThree).1 3 "payload" (by norm_num)
      (by norm_num [maxPollAttempts])
      (fun i hi => by simp [respondSucceedsAtThree, show i < 2 from hi])
      (by simp [respondSucceedsAtThree])
      (by simp [respondSucceedsAtThree])
      (by simp [respondSucceedsAtThree]),
   (C3_poll_loop respondNeverDone).2.1 (fun i _ => rfl),
   (C3_poll_loop respondFailsImmediately).2.2 "quota exceeded" rfl rfl⟩

theorem pool_sum_times_factor_bound (A B S : ℚ) :
    |(round2 A + round2 B + round2 S) * (367/100) -
      round2 ((A + B + S) * (367/100))| ≤ 1201/20000 := by
  have hA := abs_round2_sub_le A
  have hB := abs_round2_sub_le B
  have hS := abs_round2_sub_le S
  have hT := abs_round2_sub_le ((A + B + S) * (367/100))
  rw [abs_le] at hA hB hS hT ⊢
  constructor <;> nlinarith [hA.1, hA.2, hB.1, hB.2, hS.1, hS.2, hT.1, hT.2]

theorem ratio_shares_sum_bound (t sR aR bR : ℚ) (hsum : sR + aR + bR = 1) :
    |round2 (t * aR) + round2 (t * bR) + round2 (t * sR) - round2 t| ≤ 1/50 := by
  have hA := abs_round2_sub_le (t * aR)
  have hB := abs_round2_sub_le (t * bR)
  have hS := abs_round2_sub_le (t * sR)
  have hT := abs_round2_sub_le t
  have hsplit : t * aR + t * bR + t * sR = t := by linear_combination t * hsum
  rw [abs_le] at hA hB hS hT ⊢
  constructor <;> nlinarith [hA.1, hA.2, hB.1, hB.2, hS.1, hS.2, hT.1, hT.2]

/-- C1 (amended): in calculateCarbonFromRealData the three pools multiplied by
the fixed CO2 factor 3.67 equal totalCO2e within the accumulated two-decimal
rounding tolerance, for every input; in calculateCarbonFromNDVIAndLandCover
the CO2 factor is already folded into the per-hectare coefficients, and it is
the plain pool sum (without the 3.67 factor) that equals totalCO2e within
rounding tolerance. -/
theorem C1_pool_sum_invariant :
    (∀ m s lc area dq,
      |((calculateCarbonFromRealData m s lc area dq).aboveGroundBiomass +
        (calculateCarbonFromRealData m s lc area dq).belowGroundBiomass +
        (calculateCarbonFromRealData m s lc area dq).soilOrganicCarbon) *
          (367/100) -
        (calculateCarbonFromRealData m s lc area dq).totalCO2e| ≤ 1201/20000) ∧
    (∀ area m s lc o, calculateCarbonFromNDVIAndLandCover area m s lc = some o →
      |o.aboveGroundBiomass + o.belowGroundBiomass + o.soilOrganicCarbon -
        o.totalCO2e| ≤ 1/50) := by
  constructor
  · intro m s lc area dq
    exact pool_sum_times_factor_bound
      ((accumPools m (qualityMultiplier dq) area lc).ag * variabilityFactorReal s)
      ((accumPools m (qualityMultiplier dq) area lc).bg * variabilityFactorReal s)
      ((accumPools m (qualityMultiplier dq) area lc).soil)
  · intro area m s lc o h
    unfold calculateCarbonFromNDVIAndLandCover at h
    cases hd : dominantCover lc with
    | none => rw [hd] at h; exact Option.noConfusion h
    | some d =>
      rw [hd] at h
      simp only [Option.some.injEq] at h
      subst h
      exact ratio_shares_sum_bound
        (weightedCarbon m area lc * variabilityFactorNdvi s)
        (poolRatios d.1).1 (poolRatios d.1).2.1 (poolRatios d.1).2.2
        (poolRatios_sum d.1)

/-- Witness for C1 at a concrete run of the NDVI-variant engine. -/
theorem C1_witness :
    |(20 : ℚ) + 8 + 52 - 80| ≤ 1/50 :=
  C1_pool_sum_invariant.2 1 (2/5) 0 [("Grassland", 100)] ⟨80, 20, 8, 52⟩ (by
    simp [calculateCarbonFromNDVIAndLandCover, dominantCover, weightedCarbon,
      coefNdviOrDefault, coefNdvi, variabilityFactorNdvi, poolRatios]
    norm_num [round2, CarbonOut.mk.injEq])

/-- Counterexample to C1 as stated: on calculateCarbonFromNDVIAndLandCover
(one of the two engines the claim covers) the pool sum already equals
totalCO2e, so multiplying the pool sum by the CO2-equivalence factor 3.67
overshoots totalCO2e by 213.6 at this input, far beyond any 2-decimal
rounding tolerance. -/
theorem C1_counterexample :
    calculateCarbonFromNDVIAndLandCover 1 (2/5) 0 [("Grassland", 100)] =
      some ⟨80, 20, 8, 52⟩ ∧
    ((20 : ℚ) + 8 + 52) * (367/100) - 80 = 1068/5 ∧
    ¬(|((20 : ℚ) + 8 + 52) * (367/100) - 80| ≤ 1/2) := by
  refine ⟨?_, by norm_num, by norm_num [abs_le]⟩
  simp [calculateCarbonFromNDVIAndLandCover, dominantCover, weightedCarbon,
    coefNdviOrDefault, coefNdvi, variabilityFactorNdvi, poolRatios]
  norm_num [round2, CarbonOut.mk.injEq]

/-- Counterexample to C2 as stated: for a negative area the engine signals no
error at all and silently returns a fully numeric (negative-valued) estimate. -/
theorem C2_counterexample :
    calculateCarbonFromRealData (1/2) (3/40) [("Forest", 100)] (-1) "high" =
      ⟨-(98723/100), -150, -39, -80⟩ := by
  simp [calculateCarbonFromRealData, accumPools, lookupCoeff, carbonCoefficients,
    List.find?, qualityMultiplier, ndviBiomassMultiplier, variabilityFactorReal]
  norm_num [round2, CarbonOut.mk.injEq]

/-- C2 (amended): the estimation engines perform no input validation and
signal no InvalidInput error. A negative areaHectares silently produces a
numeric, negative totalCO2e from calculateCarbonFromRealData; an empty
land-cover map silently produces an all-zero estimate there; and
calculateCarbonFromNDVIAndLandCover raises an untyped exception (reducing an
empty array with no initial value) on an empty land-cover map, modelled by
none. No network call occurs in either engine (both are pure functions of
their arguments). -/
theorem C2_no_input_validation :
    (calculateCarbonFromRealData (1/2) (3/40) [("Forest", 100)] (-1)
      "high").totalCO2e < 0 ∧
    (∀ m s area dq,
      calculateCarbonFromRealData m s [] area dq = ⟨0, 0, 0, 0⟩) ∧
    (∀ area m s, calculateCarbonFromNDVIAndLandCover area m s [] = none) := by
  refine ⟨?_, ?_, ?_⟩
  · have : (calculateCarbonFromRealData (1/2) (3/40) [("Forest", 100)] (-1)
        "high").totalCO2e = -(98723/100) := by
      simp [calculateCarbonFromRealData, accumPools, lookupCoeff,
        carbonCoefficients, List.find?, qualityMultiplier,
        ndviBiomassMultiplier, variabilityFactorReal]
      norm_num [round2]
    rw [this]
    norm_num
  · intro m s area dq
    simp [calculateCarbonFromRealData, accumPools, round2_zero]
  · intro area m s
    simp [calculateCarbonFromNDVIAndLandCover, dominantCover]

/-- Counterexample to C7 as stated: calculateCarbonFromRealData (one of the
two engines the claim covers) silently drops a category absent from its
coefficient table, so an unknown category with 100 percent share on a
positive area contributes zero, not a positive default-coefficient amount. -/
theorem C7_counterexample :
    calculateCarbonFromRealData (1/2) (3/40) [("Swamp", 100)] 1 "high" =
      ⟨0, 0, 0, 0⟩ := by
  simp [calculateCarbonFromRealData, accumPools, lookupCoeff, carbonCoefficients,
    List.find?, round2_zero]

/-- C7 (amended): only calculateCarbonFromNDVIAndLandCover substitutes the
conservative default coefficient 50 for a category label missing from its
table, so there an unknown category with positive percentage on positive area
contributes a positive amount to the accumulated carbon total; the
calculateCarbonFromRealData accumulation instead skips unknown categories
entirely, contributing zero to every pool. -/
theorem C7_unknown_category_default :
    (∀ m t, coefNdvi m t = none → coefNdviOrDefault m t = 50) ∧
    (∀ m area t pct, coefNdvi m t = none → 0 < pct → 0 < area →
      0 < weightedCarbon m area [(t, pct)]) ∧
    (∀ m qm area t pct, lookupCoeff t = none →
      accumPools m qm area [(t, pct)] = ⟨0, 0, 0⟩) := by
  refine ⟨?_, ?_, ?_⟩
  · intro m t h
    unfold coefNdviOrDefault
    rw [h]
  · intro m area t pct h hpct harea
    have hdef : coefNdviOrDefault m t = 50 := by
      unfold coefNdviOrDefault
      rw [h]
    simp only [weightedCarbon, hdef]
    nlinarith [mul_pos hpct harea]
  · intro m qm area t pct h
    simp [accumPools, h]

/-- Witness for C7 at the concrete unknown label Swamp. -/
theorem C7_witness :
    coefNdviOrDefault (1/2) "Swamp" = 50 ∧
    0 < weightedCarbon (1/2) 1 [("Swamp", 100)] ∧
    accumPools (1/2) 1 1 [("Swamp", 100)] = ⟨0, 0, 0⟩ :=
  ⟨C7_unknown_category_default.1 (1/2) "Swamp" (by simp [coefNdvi]),
   C7_unknown_category_default.2.1 (1/2) 1 "Swamp" 100 (by simp [coefNdvi])
     (by norm_num) (by norm_num),
   C7_unknown_category_default.2.2 (1/2) 1 1 "Swamp" 100
     (by simp [lookupCoeff, carbonCoefficients, List.find?])⟩

/-- C5: holding land cover, area, index standard deviation and data quality
fixed (over the valid domain of nonnegative area, percentages and standard
deviation), aboveGroundBiomass from calculateCarbonFromRealData is
non-decreasing in meanIndex, and the NDVI-derived multiplier is clamped to
the range 0.2 to 2.0. -/
theorem C5_agb_monotone_in_mean_index (m1 m2 s area : ℚ)
    (lc : List (String × ℚ)) (dq : String)
    (harea : 0 ≤ area) (hs : 0 ≤ s) (hpct : ∀ p ∈ lc, 0 ≤ p.2)
    (hm : m1 ≤ m2) :
    (calculateCarbonFromRealData m1 s lc area dq).aboveGroundBiomass ≤
      (calculateCarbonFromRealData m2 s lc area dq).aboveGroundBiomass ∧
    (∀ m, 1/5 ≤ ndviBiomassMultiplier m ∧ ndviBiomassMultiplier m ≤ 2) := by
  refine ⟨?_, ndviBiomassMultiplier_bounds⟩
  apply round2_mono
  rw [accumPools_ag_factored, accumPools_ag_factored]
  have hbase : 0 ≤ agBase (qualityMultiplier dq) area lc :=
    agBase_nonneg (qualityMultiplier_pos dq).le harea hpct
  have hvf : 0 ≤ variabilityFactorReal s := (variabilityFactorReal_pos hs).le
  have hmul := ndviBiomassMultiplier_mono hm
  have h1 : ndviBiomassMultiplier m1 * agBase (qualityMultiplier dq) area lc ≤
      ndviBiomassMultiplier m2 * agBase (qualityMultiplier dq) area lc :=
    mul_le_mul_of_nonneg_right hmul hbase
  exact mul_le_mul_of_nonneg_right h1 hvf

/-- Witness for C5 at a concrete pair of mean indices on a pure Forest
parcel. -/
theorem C5_witness :
    (calculateCarbonFromRealData (1/5) 0 [("Forest", 100)] 1
      "high").aboveGroundBiomass ≤
      (calculateCarbonFromRealData (2/5) 0 [("Forest", 100)] 1
        "high").aboveGroundBiomass ∧
    (∀ m, 1/5 ≤ ndviBiomassMultiplier m ∧ ndviBiomassMultiplier m ≤ 2) :=
  C5_agb_monotone_in_mean_index (1/5) (2/5) 0 1 [("Forest", 100)] "high"
    (by norm_num) le_rfl
    (by
      intro p hp
      simp only [List.mem_singleton] at hp
      subst hp
      norm_num)
    (by norm_num)

/-- C4 (amended): in calculateCarbonFromNDVIAndLandCover the variability
factor equals 1.0 at the reference standard deviation 0 and is non-increasing,
so with a nonnegative weighted carbon sum the reported totalCO2e is
non-increasing in indexStdDev; in calculateCarbonFromRealData, however, the
variability factor equals 1.0 at its reference standard deviation 0.075 but
strictly increases with indexStdDev, the opposite of the claimed dampening. -/
theorem C4_variability_correction :
    variabilityFactorNdvi 0 = 1 ∧
    (∀ s1 s2, s1 ≤ s2 → variabilityFactorNdvi s2 ≤ variabilityFactorNdvi s1) ∧
    (∀ area m lc s1 s2 o1 o2, s1 ≤ s2 →
      0 ≤ weightedCarbon m area lc →
      calculateCarbonFromNDVIAndLandCover area m s1 lc = some o1 →
      calculateCarbonFromNDVIAndLandCover area m s2 lc = some o2 →
      o2.totalCO2e ≤ o1.totalCO2e) ∧
    variabilityFactorReal (3/40) = 1 ∧
    (∀ s1 s2, s1 < s2 → variabilityFactorReal s1 < variabilityFactorReal s2) := by
  refine ⟨?_, fun s1 s2 h => variabilityFactorNdvi_anti h, ?_, ?_, ?_⟩
  · unfold variabilityFactorNdvi
    norm_num
  · intro area m lc s1 s2 o1 o2 hs hw h1 h2
    unfold calculateCarbonFromNDVIAndLandCover at h1 h2
    cases hd : dominantCover lc with
    | none => rw [hd] at h1; exact Option.noConfusion h1
    | some d =>
      rw [hd] at h1 h2
      simp only [Option.some.injEq] at h1 h2
      subst h1
      subst h2
      apply round2_mono
      exact mul_le_mul_of_nonneg_left (variabilityFactorNdvi_anti hs) hw
  · unfold variabilityFactorReal
    norm_num
  · intro s1 s2 h
    unfold variabilityFactorReal
    linarith

/-- Witness for C4 at concrete standard deviations on a pure Grassland
parcel of the NDVI-variant engine and for the RealData factor. -/
theorem C4_witness :
    variabilityFactorNdvi 1 ≤ variabilityFactorNdvi 0 ∧
    ((56 : ℚ) ≤ 80) ∧
    variabilityFactorReal 0 < variabilityFactorReal 1 :=
  ⟨C4_variability_correction.2.1 0 1 (by norm_num),
   C4_variability_correction.2.2.1 1 (2/5) [("Grassland", 100)] 0 (3/10)
     ⟨80, 20, 8, 52⟩ ⟨56, 14, 28/5, 182/5⟩ (by norm_num)
     (by
       simp [weightedCarbon, coefNdviOrDefault, coefNdvi]
       norm_num)
     (by
       simp [calculateCarbonFromNDVIAndLandCover, dominantCover, weightedCarbon,
         coefNdviOrDefault, coefNdvi, variabilityFactorNdvi, poolRatios]
       norm_num [round2, CarbonOut.mk.injEq])
     (by
       simp [calculateCarbonFromNDVIAndLandCover, dominantCover, weightedCarbon,
         coefNdviOrDefault, coefNdvi, variabilityFactorNdvi, poolRatios]
       norm_num [round2, CarbonOut.mk.injEq]),
   C4_variability_correction.2.2.2.2 0 1 (by norm_num)⟩

/-- Counterexample to C4 as stated: in calculateCarbonFromRealData a larger
indexStdDev strictly increases totalCO2e with every other input held fixed
(0.075 versus 0.575 on a pure Forest hectare), contradicting the claim that
the total computed with the larger standard deviation is never greater. -/
theorem C4_counterexample :
    (calculateCarbonFromRealData (3/5) (3/40) [("Forest", 100)] 1
      "high").totalCO2e <
      (calculateCarbonFromRealData (3/5) (23/40) [("Forest", 100)] 1
        "high").totalCO2e := by
  have h1 : (calculateCarbonFromRealData (3/5) (3/40) [("Forest", 100)] 1
      "high").totalCO2e = 28149/25 := by
    simp [calculateCarbonFromRealData, accumPools, lookupCoeff,
      carbonCoefficients, List.find?, qualityMultiplier, ndviBiomassMultiplier,
      variabilityFactorReal]
    norm_num [round2]
  have h2 : (calculateCarbonFromRealData (3/5) (23/40) [("Forest", 100)] 1
      "high").totalCO2e = 195831/100 := by
    simp [calculateCarbonFromRealData, accumPools, lookupCoeff,
      carbonCoefficients, List.find?, qualityMultiplier, ndviBiomassMultiplier,
      variabilityFactorReal]
    norm_num [round2]
  rw [h1, h2]
  norm_num

/-- C6 (amended): the data-quality grade is non-increasing in cloud coverage
in both engines; in the live RealData path the scalar uncertainty percentage
strictly increases across the 20-percent and 50-percent cloud thresholds; and
in the NDVI-variant path the reported uncertainty range pair strictly widens
whenever the grade strictly degrades, provided totalCO2e is positive. -/
theorem C6_cloud_quality_uncertainty :
    (∀ c1 c2 : ℚ, c1 ≤ c2 →
      qualityRank (dataQualityReal c2) ≤ qualityRank (dataQualityReal c1)) ∧
    (∀ c1 c2 : ℚ, c1 < 20 → 20 ≤ c2 → uncertaintyReal c1 < uncertaintyReal c2) ∧
    (∀ c1 c2 : ℚ, c1 < 50 → 50 ≤ c2 → uncertaintyReal c1 < uncertaintyReal c2) ∧
    (∀ s c1 c2 : ℚ, c1 ≤ c2 →
      qualityRank (dataQualityNdvi c2 s) ≤ qualityRank (dataQualityNdvi c1 s)) ∧
    (∀ (s c1 c2 t : ℚ), 0 < t →
      qualityRank (dataQualityNdvi c2 s) < qualityRank (dataQualityNdvi c1 s) →
      rangeWidth (uncertaintyRangeNdvi t
          (uncertaintyFactorNdvi (dataQualityNdvi c1 s))) <
        rangeWidth (uncertaintyRangeNdvi t
          (uncertaintyFactorNdvi (dataQualityNdvi c2 s)))) := by
  refine ⟨?_, ?_, ?_, ?_, ?_⟩
  · intro c1 c2 h
    unfold dataQualityReal
    split_ifs <;> simp [qualityRank] <;> linarith
  · intro c1 c2 h1 h2
    unfold uncertaintyReal
    split_ifs <;> norm_num
    all_goals linarith
  · intro c1 c2 h1 h2
    unfold uncertaintyReal
    split_ifs <;> norm_num
    all_goals linarith
  · intro s c1 c2 h
    unfold dataQualityNdvi
    split_ifs <;> simp [qualityRank]
    all_goals
      exfalso
      rcases ‹_ ∨ _› with hc | hc <;> simp_all <;> linarith
  · intro s c1 c2 t ht hrank
    unfold dataQualityNdvi at hrank ⊢
    split_ifs at hrank ⊢ <;>
      simp [qualityRank] at hrank <;>
      simp [uncertaintyFactorNdvi, uncertaintyRangeNdvi, rangeWidth] <;>
      nlinarith

/-- Witness for C6 at concrete cloud coverages: 10 versus 25 percent for the
scalar uncertainty and quality rank of the RealData path, and 5 versus 15
percent with positive total for the widening range of the NDVI path. -/
theorem C6_witness :
    qualityRank (dataQualityReal 30) ≤ qualityRank (dataQualityReal 10) ∧
    uncertaintyReal 10 < uncertaintyReal 25 ∧
    uncertaintyReal 25 < uncertaintyReal 55 ∧
    qualityRank (dataQualityNdvi 15 (1/10)) ≤ qualityRank (dataQualityNdvi 5 (1/10)) ∧
    rangeWidth (uncertaintyRangeNdvi 1
        (uncertaintyFactorNdvi (dataQualityNdvi 5 (1/10)))) <
      rangeWidth (uncertaintyRangeNdvi 1
        (uncertaintyFactorNdvi (dataQualityNdvi 15 (1/10)))) :=
  ⟨C6_cloud_quality_uncertainty.1 10 30 (by norm_num),
   C6_cloud_quality_uncertainty.2.1 10 25 (by norm_num) (by norm_num),
   C6_cloud_quality_uncertainty.2.2.1 25 55 (by norm_num) (by norm_num),
   C6_cloud_quality_uncertainty.2.2.2.1 (1/10) 5 15 (by norm_num),
   C6_cloud_quality_uncertainty.2.2.2.2 (1/10) 5 15 1 (by norm_num)
     (by
       have h5 : dataQualityNdvi 5 (1/10) = "High" := by norm_num [dataQualityNdvi]
       have h15 : dataQualityNdvi 15 (1/10) = "Medium" := by
         norm_num [dataQualityNdvi]
       rw [h5, h15]
       decide)⟩

/-- Counterexample to C6 as stated: with zero area the NDVI-variant totalCO2e
is 0, so raising cloud coverage from 5 to 15 percent degrades the grade from
High to Medium yet leaves the reported uncertainty range pair at (0, 0), not
strictly wider. -/
theorem C6_counterexample :
    dataQualityNdvi 5 (1/10) = "High" ∧
    dataQualityNdvi 15 (1/10) = "Medium" ∧
    calculateCarbonFromNDVIAndLandCover 0 (1/2) (1/10) [("Grassland", 100)] =
      some ⟨0, 0, 0, 0⟩ ∧
    rangeWidth (uncertaintyRangeNdvi 0 (uncertaintyFactorNdvi "Medium")) =
      rangeWidth (uncertaintyRangeNdvi 0 (uncertaintyFactorNdvi "High")) := by
  refine ⟨?_, ?_, ?_, ?_⟩
  · norm_num [dataQualityNdvi]
  · norm_num [dataQualityNdvi]
  · simp [calculateCarbonFromNDVIAndLandCover, dominantCover, weightedCarbon,
      coefNdviOrDefault, coefNdvi, variabilityFactorNdvi, poolRatios,
      round2_zero]
  · norm_num [rangeWidth, uncertaintyRangeNdvi, uncertaintyFactorNdvi]

end CarbonMapper
